import Mathlib

/-!
Verification of the financial normalization and aggregation engine of the
vue-financial-tracker repository.

The embedding models the TypeScript/JavaScript runtime semantics of the
engine functions in `src/App.vue` (frequency normalization, tax
calculation, summary aggregation, entry updates/removal, structural JSON
import) and `src/components/CsvImport.vue` (bank-statement parsing).

Modelling conventions:
- JavaScript numbers that can only hold finite decimal values are modelled
  as `ℚ` (the engine performs only +, *, /, abs on parsed decimals; float
  rounding is out of scope per the specification, which declares float
  summation differences acceptable).
- A JavaScript number that may be `NaN` (result of `parseFloat` on a
  non-numeric string) is modelled as `Option ℚ`, `none` standing for `NaN`:
  `NaN` is falsy in conditions and contaminates `Math.abs`.
- `undefined` string fields (out-of-range array index) are modelled with
  `Option` / `getD` so that truthiness tests agree with JavaScript.
- The runtime value of the `frequency` and `type` fields is a plain string
  (the TypeScript annotation is erased at runtime and arbitrary strings can
  flow in through the unvalidated JSON import), so both are modelled as
  `String`.
- `crypto.randomUUID()` is an ambient source of fresh identifiers; the
  parser is parameterized by the stream `idGen : Nat → String` of values
  that successive calls return, in call order.
-/

/-- A named percentage tax element (`TaxElement` in `src/types.ts`). -/
structure TaxElement where
  id : String
  name : String
  percentage : ℚ
deriving DecidableEq, Repr

/-- A financial entry (`FinancialEntry` in `src/types.ts`).  `taxes` is an
optional field (`taxes?: TaxElement[]`), hence `Option`.  `frequency` and
`type` are runtime strings, see the header comment.  `date` is the result
of a `new Date(...)` construction: `none` models JavaScript's Invalid Date. -/
structure FinancialEntry where
  id : String
  description : String
  amount : ℚ
  frequency : String
  taxes : Option (List TaxElement)
  type : String
  date : Option (Nat × Nat × Nat)
deriving DecidableEq, Repr

/-- The derived summary (`Summary` in `src/types.ts`). -/
structure Summary where
  totalIncome : ℚ
  totalExpenses : ℚ
  totalTaxes : ℚ
  netIncome : ℚ
  balance : ℚ
deriving DecidableEq, Repr

/-- Function `calculateMonthlyAmount` from `src/App.vue` (lines 10–21): a `switch` on
`entry.frequency` with cases for `daily`, `weekly`, `yearly`; every other
string (including `monthly`) falls to the `default` branch returning
`entry.amount` unchanged. -/
def calculateMonthlyAmount (entry : FinancialEntry) : ℚ :=
  if entry.frequency = "daily" then entry.amount * 30
  else if entry.frequency = "weekly" then entry.amount * 4
  else if entry.frequency = "yearly" then entry.amount / 12
  else entry.amount

/-- Function `calculateTaxAmount` from `src/App.vue` (lines 23–26): returns 0 when
`taxes` is absent (`undefined`) or empty, otherwise a `reduce` summing
`monthlyAmount * tax.percentage / 100`. -/
def calculateTaxAmount (monthlyAmount : ℚ) (taxes : Option (List TaxElement)) : ℚ :=
  match taxes with
  | none => 0
  | some ts =>
    if ts.length = 0 then 0
    else ts.foldl (fun sum tax => sum + monthlyAmount * tax.percentage / 100) 0

/-- The `summary` computed value from `src/App.vue` (lines 28–53): folds the
income entries accumulating the normalized total and the tax total, folds the
expense entries accumulating their normalized total, then assembles the
`Summary` record. -/
def summary (incomeEntries expenseEntries : List FinancialEntry) : Summary :=
  let incomeDetails := incomeEntries.foldl
    (fun acc entry =>
      let monthlyAmount := calculateMonthlyAmount entry
      let taxAmount := calculateTaxAmount monthlyAmount entry.taxes
      (acc.1 + monthlyAmount, acc.2 + taxAmount))
    ((0 : ℚ), (0 : ℚ))
  let totalExpenses := expenseEntries.foldl
    (fun sum entry => sum + calculateMonthlyAmount entry) (0 : ℚ)
  { totalIncome := incomeDetails.1
    totalTaxes := incomeDetails.2
    totalExpenses := totalExpenses
    netIncome := incomeDetails.1 - incomeDetails.2
    balance := incomeDetails.1 - incomeDetails.2 - totalExpenses }

/-- The pair of authoritative entry lists held by `App.vue`'s two refs
(`incomeEntries`, `expenseEntries`). -/
structure AppState where
  income : List FinancialEntry
  expenses : List FinancialEntry
deriving DecidableEq, Repr

/-- The effect, on a list, of `list.find(e => e.id === entryId)` followed by
an in-place mutation `f` of the found entry: the first entry whose id
matches is replaced by its mutated version, everything else is untouched. -/
def updateFirst (l : List FinancialEntry) (entryId : String)
    (f : FinancialEntry → FinancialEntry) : List FinancialEntry :=
  match l with
  | [] => []
  | e :: es => if e.id = entryId then f e :: es else e :: updateFirst es entryId f

/-- Function `updateIncomeTaxes` from `src/App.vue` (lines 71–76). -/
def updateIncomeTaxes (st : AppState) (entryId : String) (taxes : List TaxElement) : AppState :=
  { st with income := updateFirst st.income entryId (fun e => { e with taxes := some taxes }) }

/-- Function `updateIncomeFrequency` from `src/App.vue` (lines 78–83). -/
def updateIncomeFrequency (st : AppState) (entryId : String) (frequency : String) : AppState :=
  { st with income := updateFirst st.income entryId (fun e => { e with frequency := frequency }) }

/-- Function `updateExpenseFrequency` from `src/App.vue` (lines 85–90). -/
def updateExpenseFrequency (st : AppState) (entryId : String) (frequency : String) : AppState :=
  { st with expenses := updateFirst st.expenses entryId (fun e => { e with frequency := frequency }) }

/-- Function `updateIncomeDescription` from `src/App.vue` (lines 92–97). -/
def updateIncomeDescription (st : AppState) (entryId : String) (description : String) : AppState :=
  { st with income := updateFirst st.income entryId (fun e => { e with description := description }) }

/-- Function `updateIncomeAmount` from `src/App.vue` (lines 99–104). -/
def updateIncomeAmount (st : AppState) (entryId : String) (amount : ℚ) : AppState :=
  { st with income := updateFirst st.income entryId (fun e => { e with amount := amount }) }

/-- Function `updateExpenseDescription` from `src/App.vue` (lines 106–111). -/
def updateExpenseDescription (st : AppState) (entryId : String) (description : String) : AppState :=
  { st with expenses := updateFirst st.expenses entryId (fun e => { e with description := description }) }

/-- Function `updateExpenseAmount` from `src/App.vue` (lines 113–118). -/
def updateExpenseAmount (st : AppState) (entryId : String) (amount : ℚ) : AppState :=
  { st with expenses := updateFirst st.expenses entryId (fun e => { e with amount := amount }) }

/-- Function `removeIncome` from `src/App.vue` (lines 63–65): `filter(entry => entry.id !== id)`. -/
def removeIncome (st : AppState) (id : String) : AppState :=
  { st with income := st.income.filter (fun entry => entry.id ≠ id) }

/-- Function `removeExpense` from `src/App.vue` (lines 67–69). -/
def removeExpense (st : AppState) (id : String) : AppState :=
  { st with expenses := st.expenses.filter (fun entry => entry.id ≠ id) }

/-! ## Structural JSON import (`importData` / `loadFromLocalStorage`) -/

/-- A JSON value, as produced by `JSON.parse`. -/
inductive Json where
  | null : Json
  | bool : Bool → Json
  | num : ℚ → Json
  | str : String → Json
  | arr : List Json → Json
  | obj : List (String × Json) → Json

/-- JavaScript property access `j.k` on a parsed JSON value: `none` models
`undefined`.  For duplicate keys `JSON.parse` keeps the last occurrence. -/
def Json.getField (j : Json) (k : String) : Option Json :=
  match j with
  | .obj fields => (fields.reverse.find? (fun p => p.1 = k)).map (fun p => p.2)
  | _ => none

/-- JavaScript truthiness of a possibly-`undefined` parsed JSON value:
`undefined`, `null`, `false`, `0` and `""` are falsy; every array and object
(empty ones included) is truthy. -/
def jsTruthyJson (v : Option Json) : Bool :=
  match v with
  | none => false
  | some .null => false
  | some (.bool b) => b
  | some (.num q) => q ≠ 0
  | some (.str s) => s ≠ ""
  | some (.arr _) => true
  | some (.obj _) => true

/-- Predicate `Array.isArray` on a possibly-`undefined` parsed JSON value. -/
def jsIsArray (v : Option Json) : Bool :=
  match v with
  | some (.arr _) => true
  | _ => false

/-- The state touched by the structural import: the raw values assigned to
the two refs (the code assigns the parsed JSON arrays wholesale, with no
per-entry decoding). -/
structure ImportState where
  income : Json
  expenses : Json

/-- The reactive-state effect of the success path of `importData` from
`src/App.vue` (lines 145–158) on an already-parsed JSON document — the same
two independent guarded assignments are performed by `loadFromLocalStorage`
(lines 176–182): `if (data.income && Array.isArray(data.income))` replace
the income list, and separately the same check-and-assign for `data.expenses`. -/
def importApply (st : ImportState) (data : Json) : ImportState :=
  let st1 :=
    if jsTruthyJson (data.getField "income") && jsIsArray (data.getField "income")
    then { st with income := (data.getField "income").getD Json.null }
    else st
  let st2 :=
    if jsTruthyJson (data.getField "expenses") && jsIsArray (data.getField "expenses")
    then { st1 with expenses := (data.getField "expenses").getD Json.null }
    else st1
  st2

/-! ## Statement parser (`parseCSV` in `src/components/CsvImport.vue`)

All string manipulation is modelled on `List Char` with structural
recursion so that concrete runs reduce inside the kernel.  The separators
used by the code (`\n`, `;`, `/`, `-`) are all single characters, so
single-character splitting matches JavaScript's `String.split`. -/

/-- JavaScript `s.split(c)` for a single-character separator: JavaScript semantics
(`"".split(c) = [""]`, empty fields kept, trailing separator yields a
trailing empty field). -/
def splitChar (c : Char) : List Char → List (List Char)
  | [] => [[]]
  | x :: xs =>
    match splitChar c xs with
    | [] => [[]]
    | g :: gs => if x = c then [] :: g :: gs else (x :: g) :: gs

/-- JavaScript `parts.join(c)` for a single-character separator. -/
def joinChar (c : Char) : List (List Char) → List Char
  | [] => []
  | [g] => g
  | g :: gs => g ++ c :: joinChar c gs

/-- The whitespace recognized by `String.prototype.trim` (the subset that
can occur in a `;`-delimited statement line). -/
def jsIsWs (c : Char) : Bool :=
  c = ' ' ∨ c = '\t' ∨ c = '\n' ∨ c = '\r' ∨ c = '\x0b' ∨ c = '\x0c'

/-- Truthiness of `line.trim()`: true iff the line has a non-whitespace
character. -/
def trimNonempty (cs : List Char) : Bool :=
  cs.any (fun c => ¬ jsIsWs c)

/-- Value of a digit sequence read in base 10. -/
def digitsToNat (ds : List Char) : Nat :=
  ds.foldl (fun n c => 10 * n + (c.toNat - 48)) 0

/-- JavaScript `parseFloat` on the model's domain (finite decimal literals): skip
leading whitespace, an optional sign, integer digits, an optional fraction,
an optional exponent; the longest valid numeric prefix is converted and any
trailing garbage ignored; if no digits are found the result is `NaN`
(`none`).  `Infinity` literals do not occur in statement data and are not
modelled. -/
def jsParseFloat (s : List Char) : Option ℚ :=
  let cs := s.dropWhile jsIsWs
  let sign : ℚ := match cs with
    | '-' :: _ => -1
    | _ => 1
  let cs := match cs with
    | '-' :: rest => rest
    | '+' :: rest => rest
    | _ => cs
  let intDs := cs.takeWhile Char.isDigit
  let cs := cs.dropWhile Char.isDigit
  let fracDs := match cs with
    | '.' :: rest => rest.takeWhile Char.isDigit
    | _ => []
  let csAfter := match cs with
    | '.' :: rest => rest.dropWhile Char.isDigit
    | _ => cs
  if intDs.isEmpty && fracDs.isEmpty then none
  else
    let mant : ℚ := (digitsToNat intDs : ℚ) + (digitsToNat fracDs : ℚ) / (10 : ℚ) ^ fracDs.length
    let expVal : ℤ := match csAfter with
      | e :: rest =>
        if e = 'e' ∨ e = 'E' then
          let (esign, edigits) : ℤ × List Char := match rest with
            | '-' :: r => (-1, r.takeWhile Char.isDigit)
            | '+' :: r => (1, r.takeWhile Char.isDigit)
            | r => (1, r.takeWhile Char.isDigit)
          if edigits.isEmpty then 0 else esign * (digitsToNat edigits : ℤ)
        else 0
      | [] => 0
    some (sign * mant * (10 : ℚ) ^ expVal)

/-- Truthiness of a JavaScript number that may be `NaN` (`none`): `NaN`,
`0` and `-0` are falsy. -/
def jsTruthyNum (v : Option ℚ) : Bool :=
  match v with
  | none => false
  | some q => q ≠ 0

/-- JavaScript `a || b` on JavaScript numbers. -/
def jsOrNum (a b : Option ℚ) : Option ℚ :=
  if jsTruthyNum a then a else b

/-- JavaScript `Math.abs`, propagating `NaN`. -/
def jsAbs (v : Option ℚ) : Option ℚ :=
  match v with
  | none => none
  | some q => some |q|

/-- JavaScript `e.amount > 0` on a JavaScript number: false for `NaN`. -/
def jsPos (v : Option ℚ) : Bool :=
  match v with
  | none => false
  | some q => 0 < q

/-- Days in a month, with Gregorian leap years (what `new Date` accepts for
an ISO `YYYY-MM-DD` day component). -/
def daysInMonth (y m : Nat) : Nat :=
  if m = 1 ∨ m = 3 ∨ m = 5 ∨ m = 7 ∨ m = 8 ∨ m = 10 ∨ m = 12 then 31
  else if m = 4 ∨ m = 6 ∨ m = 9 ∨ m = 11 then 30
  else if (y % 4 = 0 ∧ y % 100 ≠ 0) ∨ y % 400 = 0 then 29
  else 28

/-- JavaScript `new Date(s)` on the strings the parser builds (a `-`-join of the
reversed `/`-tokens of the date field): a valid ISO `YYYY-MM-DD` string
yields the calendar date `(year, month, day)`; anything else yields
JavaScript's Invalid Date, modelled as `none`.  (Engine-specific lenient
fallbacks for non-ISO strings are outside the model; the counterexample
inputs below are Invalid Date under real JavaScript as well.) -/
def jsNewDate (cs : List Char) : Option (Nat × Nat × Nat) :=
  match splitChar '-' cs with
  | [y, m, d] =>
    if y.length = 4 && y.all Char.isDigit && m.length = 2 && m.all Char.isDigit
        && d.length = 2 && d.all Char.isDigit then
      let yn := digitsToNat y
      let mn := digitsToNat m
      let dn := digitsToNat d
      if 1 ≤ mn ∧ mn ≤ 12 ∧ 1 ≤ dn ∧ dn ≤ daysInMonth yn mn then some (yn, mn, dn)
      else none
    else none
  | _ => none

/-- An entry produced by the statement parser.  `description` is
`values[2]`, which is `undefined` (`none`) when the line has fewer than 3
fields; `amount` is a JavaScript number that may be `NaN`. -/
@[ext]
structure CsvEntry where
  id : String
  description : Option String
  amount : Option ℚ
  frequency : String
  taxes : List TaxElement
  type : String
  date : Option (Nat × Nat × Nat)
deriving DecidableEq, Repr

/-- The body of the `map` callback in `parseCSV`
(`src/components/CsvImport.vue` lines 18–34): split the line on `;`, read
the debit (`values[8] ? parseFloat(values[8]) : 0`) and credit
(`values[9] ? parseFloat(values[9]) : 0`), infer the type from the
truthiness of the debit, take `Math.abs(debit || credit)` as amount, fix
frequency to `monthly` with empty taxes, and build the date from the
reversed `/`-tokens of `values[0]` joined with `-`. -/
def parseLine (id : String) (line : List Char) : CsvEntry :=
  let values := splitChar ';' line
  let debit := if values.getD 8 [] ≠ [] then jsParseFloat (values.getD 8 []) else some 0
  let credit := if values.getD 9 [] ≠ [] then jsParseFloat (values.getD 9 []) else some 0
  let ty := if jsTruthyNum debit then "expense" else "income"
  let amount := jsAbs (jsOrNum debit credit)
  { id := id
    description := (values.get? 2).map String.mk
    amount := amount
    frequency := "monthly"
    taxes := []
    type := ty
    date := jsNewDate (joinChar '-' (splitChar '/' (values.headD [])).reverse) }

/-- Mapping a function over a list together with the running index of the
element, starting at `i` — models the order in which the `map` callback
(and therefore `crypto.randomUUID()`) is invoked. -/
def mapWithIndex (f : Nat → List Char → CsvEntry) : Nat → List (List Char) → List CsvEntry
  | _, [] => []
  | i, l :: ls => f i l :: mapWithIndex f (i + 1) ls

/-- Function `parseCSV`'s text-to-entries pipeline (`src/components/CsvImport.vue`
lines 12–35): split the text on newlines, drop the header line, keep the
lines whose trim is truthy, map each to an entry (each callback invocation
drawing the next fresh id from `idGen`), and keep the entries whose amount
is `> 0`. -/
def parseCSV (idGen : Nat → String) (text : String) : List CsvEntry :=
  let lines := splitChar '\n' text.data
  ((mapWithIndex (fun i l => parseLine (idGen i) l) 0
      ((lines.drop 1).filter trimNonempty)).filter (fun e => jsPos e.amount))

/-! ## Specification-side definitions

These definitions are written from the specification's words, to be
compared with the code-derived definitions above. -/

/-- Reading a debit/credit column per the specification's words: "Parse
column 8 and column 9 as numbers; treat empty/unparseable as 0". -/
def specReadNum (field : List Char) : ℚ :=
  (jsParseFloat field).getD 0

/-- The specification's per-line description (§4.4 steps 1–5): split on
`;`; read columns 8 and 9 with empty/unparseable treated as 0; debit
non-zero gives an expense with `amount = abs(debit)`, otherwise an income
with `amount = abs(credit)`; frequency fixed to `monthly`, taxes empty;
date built by reversing the `DD/MM/YYYY` tokens into `YYYY-MM-DD`. -/
def specLine (id : String) (line : List Char) : CsvEntry :=
  let values := splitChar ';' line
  let debit := specReadNum (values.getD 8 [])
  let credit := specReadNum (values.getD 9 [])
  { id := id
    description := (values.get? 2).map String.mk
    amount := some (if debit ≠ 0 then |debit| else |credit|)
    frequency := "monthly"
    taxes := []
    type := if debit ≠ 0 then "expense" else "income"
    date := jsNewDate (joinChar '-' (splitChar '/' (values.headD [])).reverse) }

/-- The specification's whole-parser description: one entry per non-blank
line after the header, in input order, entries with amount 0 dropped. -/
def specParseCSV (idGen : Nat → String) (text : String) : List CsvEntry :=
  let lines := splitChar '\n' text.data
  ((mapWithIndex (fun i l => specLine (idGen i) l) 0
      ((lines.drop 1).filter trimNonempty)).filter (fun e => jsPos e.amount))

/-- An entry with its id erased: the parser output modulo the ambient
random-UUID source. -/
def stripId (e : CsvEntry) : CsvEntry :=
  { e with id := "" }

/-- Specification-side total: sum of the normalized monthly amounts of a
list of entries. -/
def sumMonthly (entries : List FinancialEntry) : ℚ :=
  (entries.map calculateMonthlyAmount).sum

/-- Specification-side total: sum of the tax amounts of a list of entries,
each computed on the entry's normalized monthly amount. -/
def sumTax (entries : List FinancialEntry) : ℚ :=
  (entries.map (fun e => calculateTaxAmount (calculateMonthlyAmount e) e.taxes)).sum

/-- The parser pipeline from the list of data lines on (everything after
the `lines.slice(1)` of `parseCSV`); `parseCSV idGen text` is by definition
this applied to the lines after the header. -/
def parseLines (idGen : Nat → String) (ls : List (List Char)) : List CsvEntry :=
  ((mapWithIndex (fun i l => parseLine (idGen i) l) 0
      (ls.filter trimNonempty)).filter (fun e => jsPos e.amount))

/-! ## Concrete inputs used by witnesses and counterexamples -/

/-- An id stream whose every draw is `"u"`. -/
def genU : Nat → String := fun _ => "u"

/-- An id stream whose every draw is `"A"`. -/
def genA : Nat → String := fun _ => "A"

/-- An id stream whose every draw is `"B"`. -/
def genB : Nat → String := fun _ => "B"

/-- Scenario A's income entry: amount 1000, frequency monthly, one 20% tax. -/
def scenarioAIncome : FinancialEntry :=
  { id := "i1", description := "salary", amount := 1000, frequency := "monthly"
    taxes := some [{ id := "t1", name := "tax", percentage := 20 }]
    type := "income", date := none }

/-- Scenario A's expense entry: amount 100, frequency weekly. -/
def scenarioAExpense : FinancialEntry :=
  { id := "e1", description := "rent", amount := 100, frequency := "weekly"
    taxes := none, type := "expense", date := none }

/-- An entry whose frequency lies outside the four-member enumeration. -/
def unknownFreqEntry : FinancialEntry :=
  { id := "x", description := "", amount := 7, frequency := "fortnightly"
    taxes := none, type := "income", date := none }

/-- A concrete store state before a structural import. -/
def importStateBefore : ImportState :=
  { income := Json.arr [Json.str "oldIncome"], expenses := Json.arr [Json.str "oldExpense"] }

/-- A structural payload whose `income` field is an array but whose
`expenses` field is not a sequence. -/
def mixedPayload : Json :=
  Json.obj [("income", Json.arr []), ("expenses", Json.str "not-an-array")]

/-- Three concrete entries for the update/remove witness. -/
def entryA : FinancialEntry :=
  { id := "a", description := "one", amount := 1, frequency := "monthly"
    taxes := none, type := "income", date := none }

/-- Second concrete entry, id `"b"`. -/
def entryB : FinancialEntry :=
  { id := "b", description := "two", amount := 2, frequency := "weekly"
    taxes := some [], type := "income", date := none }

/-- Third concrete entry, id `"c"`. -/
def entryC : FinancialEntry :=
  { id := "c", description := "three", amount := 3, frequency := "daily"
    taxes := none, type := "expense", date := none }

/-- A concrete application state for the update/remove witness. -/
def appStateABC : AppState :=
  { income := [entryA, entryB], expenses := [entryC] }

attribute [local semireducible] Rat.add Rat.mul Rat.inv Rat.sub

/-! ## Helper lemmas -/

/-- Folding the tax summation from any starting value adds the mapped sum. -/
theorem taxFold_eq_sum (m : ℚ) (ts : List TaxElement) (a : ℚ) :
    ts.foldl (fun sum tax => sum + m * tax.percentage / 100) a
      = a + (ts.map (fun tax => m * tax.percentage / 100)).sum := by
  induction ts generalizing a with
  | nil => simp
  | cons t ts ih => simp [ih, add_assoc]

/-- Folding the income accumulator from any starting pair adds the two
mapped sums componentwise. -/
theorem incomeFold_eq_sum (l : List FinancialEntry) (a b : ℚ) :
    l.foldl (fun acc entry =>
        (acc.1 + calculateMonthlyAmount entry,
         acc.2 + calculateTaxAmount (calculateMonthlyAmount entry) entry.taxes)) (a, b)
      = (a + sumMonthly l, b + sumTax l) := by
  induction l generalizing a b with
  | nil => simp [sumMonthly, sumTax]
  | cons e es ih => simp [sumMonthly, sumTax, ih, add_assoc]

/-- Folding the expense accumulator from any starting value adds the
mapped sum. -/
theorem expenseFold_eq_sum (l : List FinancialEntry) (a : ℚ) :
    l.foldl (fun sum entry => sum + calculateMonthlyAmount entry) a = a + sumMonthly l := by
  induction l generalizing a with
  | nil => simp [sumMonthly]
  | cons e es ih => simp [sumMonthly, ih, add_assoc]

/-- JavaScript `parseFloat` of the empty string is `NaN`. -/
theorem jsParseFloat_nil : jsParseFloat [] = none := rfl

/-- Truthiness facts for modelled JavaScript numbers. -/
theorem jsTruthyNum_some_zero : jsTruthyNum (some 0) = false := by
  simp [jsTruthyNum]

/-- When the first operand is falsy, `a || b` returns the second. -/
theorem jsOrNum_falsy (a b : Option ℚ) (h : jsTruthyNum a = false) : jsOrNum a b = b := by
  simp [jsOrNum, h]

/-- The credit-side amount: when the debit is falsy, the code's amount is
`Math.abs` of the credit, which agrees with the specification's
`abs(credit)` (empty/unparseable read as 0) except when the credit field is
non-empty and unparseable, in which case the code's amount is `NaN` and the
specification's is 0 — both below the `> 0` emission bar. -/
theorem income_amount_cases (debit : Option ℚ) (h : jsTruthyNum debit = false)
    (d9 : List Char) :
    jsAbs (jsOrNum debit (if d9 ≠ [] then jsParseFloat d9 else some 0))
        = some |(jsParseFloat d9).getD 0| ∨
    (jsAbs (jsOrNum debit (if d9 ≠ [] then jsParseFloat d9 else some 0)) = none ∧
      ((jsParseFloat d9).getD 0 : ℚ) = 0) := by
  rw [jsOrNum_falsy _ _ h]
  by_cases h9 : d9 = []
  · left; simp [h9, jsParseFloat_nil, jsAbs]
  · cases hp : jsParseFloat d9 with
    | none => right; simp [h9, hp, jsAbs]
    | some c => left; simp [h9, hp, jsAbs]

/-- When no entry of the list has the given id, `updateFirst` is the
identity. -/
theorem updateFirst_no_match (l : List FinancialEntry) (i : String)
    (f : FinancialEntry → FinancialEntry) (h : ∀ e ∈ l, e.id ≠ i) :
    updateFirst l i f = l := by
  induction l with
  | nil => rfl
  | cons e es ih =>
    simp only [updateFirst]
    rw [if_neg (h e (by simp)), ih (fun x hx => h x (by simp [hx]))]

/-- Function `updateFirst` rewrites exactly the first entry with a matching id:
entries before it (all with other ids) and after it are returned as they
are. -/
theorem updateFirst_first_match (pre : List FinancialEntry) (e : FinancialEntry)
    (post : List FinancialEntry) (i : String) (f : FinancialEntry → FinancialEntry)
    (hpre : ∀ x ∈ pre, x.id ≠ i) (he : e.id = i) :
    updateFirst (pre ++ e :: post) i f = pre ++ f e :: post := by
  induction pre with
  | nil => simp [updateFirst, he]
  | cons x xs ih =>
    have hx := hpre x (by simp)
    have ih2 := ih (fun y hy => hpre y (by simp [hy]))
    simp only [List.cons_append, updateFirst, if_neg hx]
    exact congrArg (fun t => x :: t) ih2

/-- The income list after a structural import, as a conditional. -/
theorem importApply_income (st : ImportState) (data : Json) :
    (importApply st data).income =
      if (jsTruthyJson (data.getField "income") && jsIsArray (data.getField "income")) = true
      then (data.getField "income").getD Json.null else st.income := by
  simp only [importApply]
  by_cases h1 : (jsTruthyJson (data.getField "income") && jsIsArray (data.getField "income")) = true <;>
    by_cases h2 : (jsTruthyJson (data.getField "expenses") && jsIsArray (data.getField "expenses")) = true <;>
      simp [h1, h2]

/-- The expense list after a structural import, as a conditional. -/
theorem importApply_expenses (st : ImportState) (data : Json) :
    (importApply st data).expenses =
      if (jsTruthyJson (data.getField "expenses") && jsIsArray (data.getField "expenses")) = true
      then (data.getField "expenses").getD Json.null else st.expenses := by
  simp only [importApply]
  by_cases h1 : (jsTruthyJson (data.getField "income") && jsIsArray (data.getField "income")) = true <;>
    by_cases h2 : (jsTruthyJson (data.getField "expenses") && jsIsArray (data.getField "expenses")) = true <;>
      simp [h1, h2]

/-! ## Claim theorems -/

/-- C1, counterexample: a payload whose `income` field is an array but
whose `expenses` field is not a sequence — so not "an object with both
`income` and `expenses` being sequences" — is not rejected: the income
list is overwritten while the expense list is kept, a partial overwrite
with no `MalformedImportDocument` error. -/
theorem malformed_import_counterexample :
    (importApply importStateBefore mixedPayload).income = Json.arr [] ∧
    (importApply importStateBefore mixedPayload).expenses = importStateBefore.expenses ∧
    ¬ (importApply importStateBefore mixedPayload).income = importStateBefore.income := by
  refine ⟨rfl, rfl, ?_⟩
  intro h
  simp [importApply, importStateBefore, mixedPayload, Json.getField, jsTruthyJson, jsIsArray] at h

/-- C1, amended: the structural import validates the `income` and
`expenses` fields independently; each list is overwritten exactly when its
field is present and an array, and is left unchanged otherwise — so a
payload in which neither field is an array (in particular
`{"income": "not-an-array"}`) leaves both lists unchanged, but a payload
with one valid sequence partially overwrites, and no
`MalformedImportDocument` error is raised. -/
theorem import_independent_validation (st : ImportState) (data : Json) :
    (jsIsArray (data.getField "income") = false → (importApply st data).income = st.income) ∧
    (jsIsArray (data.getField "expenses") = false → (importApply st data).expenses = st.expenses) ∧
    (∀ l, data.getField "income" = some (Json.arr l) →
      (importApply st data).income = Json.arr l) ∧
    (∀ l, data.getField "expenses" = some (Json.arr l) →
      (importApply st data).expenses = Json.arr l) ∧
    importApply st (Json.obj [("income", Json.str "not-an-array")]) = st := by
  refine ⟨?_, ?_, ?_, ?_, rfl⟩
  · intro h; rw [importApply_income]; simp [h]
  · intro h; rw [importApply_expenses]; simp [h]
  · intro l h; rw [importApply_income]; simp [h, jsTruthyJson, jsIsArray]
  · intro l h; rw [importApply_expenses]; simp [h, jsTruthyJson, jsIsArray]

/-- Witness for the amended C1: the mixed payload leaves the expense list
unchanged, and the Scenario D payload leaves the whole state unchanged. -/
theorem import_independent_validation_witness :
    (importApply importStateBefore mixedPayload).expenses = importStateBefore.expenses ∧
    importApply importStateBefore (Json.obj [("income", Json.str "not-an-array")]) =
      importStateBefore :=
  ⟨(import_independent_validation importStateBefore mixedPayload).2.1 rfl,
   (import_independent_validation importStateBefore
      (Json.obj [("income", Json.str "not-an-array")])).2.2.2.2⟩

/-- C6: for every amount, monthly normalization returns exactly the amount
times 30 for frequency `daily`, times 4 for `weekly`, times 1 for
`monthly`, and the amount divided by 12 for `yearly`, with no rounding
(the arithmetic is exact). -/
theorem calculateMonthlyAmount_factors (e : FinancialEntry) :
    (e.frequency = "daily" → calculateMonthlyAmount e = e.amount * 30) ∧
    (e.frequency = "weekly" → calculateMonthlyAmount e = e.amount * 4) ∧
    (e.frequency = "monthly" → calculateMonthlyAmount e = e.amount * 1) ∧
    (e.frequency = "yearly" → calculateMonthlyAmount e = e.amount / 12) := by
  refine ⟨?_, ?_, ?_, ?_⟩ <;> intro h <;> simp [calculateMonthlyAmount, h]

/-- Witness for C6: the four factors at concrete entries of each frequency. -/
theorem calculateMonthlyAmount_factors_witness :
    calculateMonthlyAmount { entryA with frequency := "daily" } = entryA.amount * 30 ∧
    calculateMonthlyAmount { entryA with frequency := "weekly" } = entryA.amount * 4 ∧
    calculateMonthlyAmount { entryA with frequency := "monthly" } = entryA.amount * 1 ∧
    calculateMonthlyAmount { entryA with frequency := "yearly" } = entryA.amount / 12 :=
  ⟨(calculateMonthlyAmount_factors { entryA with frequency := "daily" }).1 rfl,
   (calculateMonthlyAmount_factors { entryA with frequency := "weekly" }).2.1 rfl,
   (calculateMonthlyAmount_factors { entryA with frequency := "monthly" }).2.2.1 rfl,
   (calculateMonthlyAmount_factors { entryA with frequency := "yearly" }).2.2.2 rfl⟩

/-- C2, counterexample: the frequency `"fortnightly"` lies outside the
four-member enumeration, yet normalization does not fail — it silently
returns the amount times 1 (the `default` branch of the `switch`). -/
theorem invalidFrequency_counterexample :
    unknownFreqEntry.frequency ≠ "daily" ∧ unknownFreqEntry.frequency ≠ "weekly" ∧
    unknownFreqEntry.frequency ≠ "monthly" ∧ unknownFreqEntry.frequency ≠ "yearly" ∧
    calculateMonthlyAmount unknownFreqEntry = unknownFreqEntry.amount * 1 := by
  refine ⟨by decide, by decide, by decide, by decide, ?_⟩
  simp [calculateMonthlyAmount, unknownFreqEntry]

/-- C2, amended: every frequency value outside the cases `daily`, `weekly`,
`yearly` — in particular every value outside the four-member enumeration —
is silently given the monthly conversion factor 1 by the `default` branch;
no `InvalidFrequency` failure exists in the code. -/
theorem unknown_frequency_defaults (e : FinancialEntry)
    (hd : e.frequency ≠ "daily") (hw : e.frequency ≠ "weekly")
    (hy : e.frequency ≠ "yearly") :
    calculateMonthlyAmount e = e.amount * 1 := by
  simp [calculateMonthlyAmount, hd, hw, hy]

/-- Witness for the amended C2 at the out-of-enumeration frequency
`"fortnightly"`. -/
theorem unknown_frequency_defaults_witness :
    calculateMonthlyAmount unknownFreqEntry = unknownFreqEntry.amount * 1 :=
  unknown_frequency_defaults unknownFreqEntry (by decide) (by decide) (by decide)

/-- C7: the tax amount is the sum over all tax elements of
`monthlyAmount * percentage / 100`, each percentage applying to the same
base (no compounding), and an empty or absent tax list yields 0. -/
theorem calculateTaxAmount_spec (m : ℚ) (ts : List TaxElement) :
    calculateTaxAmount m (some ts) = (ts.map (fun tax => m * tax.percentage / 100)).sum ∧
    calculateTaxAmount m (some []) = 0 ∧
    calculateTaxAmount m none = 0 := by
  refine ⟨?_, rfl, rfl⟩
  cases ts with
  | nil => rfl
  | cons t ts => simp [calculateTaxAmount, taxFold_eq_sum]

/-- C4: the summary's totals are the sums of the normalized monthly
amounts and tax amounts, `netIncome = totalIncome - totalTaxes`,
`balance = netIncome - totalExpenses`, hence
`balance = totalIncome - totalTaxes - totalExpenses`; and Scenario A
evaluates to totals 1000/200/400, net 800, balance 400. -/
theorem summary_spec (incomeEntries expenseEntries : List FinancialEntry) :
    (summary incomeEntries expenseEntries).totalIncome = sumMonthly incomeEntries ∧
    (summary incomeEntries expenseEntries).totalTaxes = sumTax incomeEntries ∧
    (summary incomeEntries expenseEntries).totalExpenses = sumMonthly expenseEntries ∧
    (summary incomeEntries expenseEntries).netIncome =
      (summary incomeEntries expenseEntries).totalIncome -
        (summary incomeEntries expenseEntries).totalTaxes ∧
    (summary incomeEntries expenseEntries).balance =
      (summary incomeEntries expenseEntries).netIncome -
        (summary incomeEntries expenseEntries).totalExpenses ∧
    (summary incomeEntries expenseEntries).balance =
      (summary incomeEntries expenseEntries).totalIncome -
        (summary incomeEntries expenseEntries).totalTaxes -
        (summary incomeEntries expenseEntries).totalExpenses ∧
    summary [scenarioAIncome] [scenarioAExpense] =
      { totalIncome := 1000, totalTaxes := 200, totalExpenses := 400
        netIncome := 800, balance := 400 } := by
  refine ⟨?_, ?_, ?_, ?_, ?_, ?_, ?_⟩
  · simp only [summary, incomeFold_eq_sum]; simp
  · simp only [summary, incomeFold_eq_sum]; simp
  · simp only [summary, expenseFold_eq_sum]; simp
  · simp only [summary]
  · simp only [summary]
  · simp only [summary]
  · decide


/-- C10: an update operation whose id matches no entry leaves both lists
unchanged; when the id matches, only the named field of the first matching
entry changes, every other field of that entry, every other entry, and the
other list staying the same; and removal removes exactly the entries with
the given id, preserving the other entries and their order. -/
theorem update_remove_frame (st : AppState) (i : String) :
    ((∀ e ∈ st.income, e.id ≠ i) →
      ∀ ts freq desc amt,
        updateIncomeTaxes st i ts = st ∧
        updateIncomeFrequency st i freq = st ∧
        updateIncomeDescription st i desc = st ∧
        updateIncomeAmount st i amt = st) ∧
    ((∀ e ∈ st.expenses, e.id ≠ i) →
      ∀ freq desc amt,
        updateExpenseFrequency st i freq = st ∧
        updateExpenseDescription st i desc = st ∧
        updateExpenseAmount st i amt = st) ∧
    (∀ pre e post, st.income = pre ++ e :: post → e.id = i → (∀ x ∈ pre, x.id ≠ i) →
      ∀ ts freq desc amt,
        updateIncomeTaxes st i ts =
          { st with income := pre ++ { e with taxes := some ts } :: post } ∧
        updateIncomeFrequency st i freq =
          { st with income := pre ++ { e with frequency := freq } :: post } ∧
        updateIncomeDescription st i desc =
          { st with income := pre ++ { e with description := desc } :: post } ∧
        updateIncomeAmount st i amt =
          { st with income := pre ++ { e with amount := amt } :: post }) ∧
    (∀ pre e post, st.expenses = pre ++ e :: post → e.id = i → (∀ x ∈ pre, x.id ≠ i) →
      ∀ freq desc amt,
        updateExpenseFrequency st i freq =
          { st with expenses := pre ++ { e with frequency := freq } :: post } ∧
        updateExpenseDescription st i desc =
          { st with expenses := pre ++ { e with description := desc } :: post } ∧
        updateExpenseAmount st i amt =
          { st with expenses := pre ++ { e with amount := amt } :: post }) ∧
    ((removeIncome st i).expenses = st.expenses ∧
      (removeIncome st i).income.Sublist st.income ∧
      (∀ e ∈ (removeIncome st i).income, e.id ≠ i) ∧
      (∀ e : FinancialEntry, e.id ≠ i →
        (removeIncome st i).income.count e = st.income.count e)) ∧
    ((removeExpense st i).income = st.income ∧
      (removeExpense st i).expenses.Sublist st.expenses ∧
      (∀ e ∈ (removeExpense st i).expenses, e.id ≠ i) ∧
      (∀ e : FinancialEntry, e.id ≠ i →
        (removeExpense st i).expenses.count e = st.expenses.count e)) := by
  refine ⟨?_, ?_, ?_, ?_, ⟨rfl, ?_, ?_, ?_⟩, ⟨rfl, ?_, ?_, ?_⟩⟩
  · intro h ts freq desc amt
    refine ⟨?_, ?_, ?_, ?_⟩ <;>
      simp [updateIncomeTaxes, updateIncomeFrequency, updateIncomeDescription,
        updateIncomeAmount, updateFirst_no_match _ _ _ h]
  · intro h freq desc amt
    refine ⟨?_, ?_, ?_⟩ <;>
      simp [updateExpenseFrequency, updateExpenseDescription, updateExpenseAmount,
        updateFirst_no_match _ _ _ h]
  · intro pre e post hst he hpre ts freq desc amt
    refine ⟨?_, ?_, ?_, ?_⟩ <;>
      simp [updateIncomeTaxes, updateIncomeFrequency, updateIncomeDescription,
        updateIncomeAmount, hst, updateFirst_first_match _ _ _ _ _ hpre he]
  · intro pre e post hst he hpre freq desc amt
    refine ⟨?_, ?_, ?_⟩ <;>
      simp [updateExpenseFrequency, updateExpenseDescription, updateExpenseAmount,
        hst, updateFirst_first_match _ _ _ _ _ hpre he]
  · exact List.filter_sublist _
  · intro e he
    have := (List.mem_filter.mp he).2
    simpa using this
  · intro e hne
    exact List.count_filter (by simpa using hne)
  · exact List.filter_sublist _
  · intro e he
    have := (List.mem_filter.mp he).2
    simpa using this
  · intro e hne
    exact List.count_filter (by simpa using hne)

/-- Witness for C10: at the concrete state, updating the amount of the
entry with id `"b"` rewrites only that entry, and removing id `"a"`
preserves the count of the entry with id `"b"`. -/
theorem update_remove_frame_witness :
    updateIncomeAmount appStateABC "b" 5 =
      { appStateABC with income := [entryA] ++ { entryB with amount := 5 } :: [] } ∧
    (removeIncome appStateABC "a").income.count entryB = appStateABC.income.count entryB := by
  have hb := update_remove_frame appStateABC "b"
  have ha := update_remove_frame appStateABC "a"
  exact ⟨(hb.2.2.1 [entryA] entryB [] rfl rfl (by decide) [] "" "" 5).2.2.2,
    ha.2.2.2.2.1.2.2.2 entryB (by decide)⟩

theorem parseLine_amount_cases (id : String) (line : List Char) :
    (parseLine id line).amount = (specLine id line).amount ∨
    ((parseLine id line).amount = none ∧ (specLine id line).amount = some 0) := by
  simp only [parseLine, specLine, specReadNum]
  by_cases h8 : (splitChar ';' line).getD 8 [] = []
  · simp only [h8, jsParseFloat_nil, ne_eq, not_true_eq_false, if_false, Option.getD_none]
    rcases income_amount_cases (some 0) jsTruthyNum_some_zero ((splitChar ';' line).getD 9 [])
      with h | ⟨h1, h2⟩
    · left; simpa using h
    · right; refine ⟨by simpa using h1, by simpa using h2⟩
  · cases hp8 : jsParseFloat ((splitChar ';' line).getD 8 []) with
    | none =>
      simp only [h8, hp8, ne_eq, not_false_eq_true, if_true, Option.getD_none]
      rcases income_amount_cases none rfl ((splitChar ';' line).getD 9 [])
        with h | ⟨h1, h2⟩
      · left; simpa using h
      · right; refine ⟨by simpa using h1, by simpa using h2⟩
    | some d =>
      by_cases hd : d = 0
      · subst hd
        simp only [h8, hp8, ne_eq, not_false_eq_true, if_true, Option.getD_some]
        rcases income_amount_cases (some 0) jsTruthyNum_some_zero ((splitChar ';' line).getD 9 [])
          with h | ⟨h1, h2⟩
        · left; simpa using h
        · right; refine ⟨by simpa using h1, by simpa using h2⟩
      · left
        simp only [h8, hp8, ne_eq, not_false_eq_true, if_true, Option.getD_some]
        simp [jsOrNum, jsTruthyNum, hd, jsAbs]

theorem truthy_type_eq (v : Option ℚ) :
    (if jsTruthyNum v = true then "expense" else "income")
      = if v.getD 0 ≠ 0 then "expense" else "income" := by
  cases v with
  | none => simp [jsTruthyNum]
  | some q => by_cases hq : q = 0 <;> simp [jsTruthyNum, hq]

theorem parseLine_type_eq (id : String) (line : List Char) :
    (parseLine id line).type = (specLine id line).type := by
  simp only [parseLine, specLine, specReadNum]
  by_cases h8 : (splitChar ';' line).getD 8 [] = []
  · simp only [h8, jsParseFloat_nil, ne_eq, not_true_eq_false, if_false, Option.getD_none]
    simp [jsTruthyNum]
  · rw [if_pos h8]
    exact truthy_type_eq _

theorem parseLine_vs_specLine (id : String) (line : List Char) :
    parseLine id line = specLine id line ∨
    (jsPos (parseLine id line).amount = false ∧ jsPos (specLine id line).amount = false) := by
  rcases parseLine_amount_cases id line with h | ⟨h1, h2⟩
  · left
    exact CsvEntry.ext rfl rfl h rfl rfl (parseLine_type_eq id line) rfl
  · right
    exact ⟨by simp [jsPos, h1], by simp [jsPos, h2]⟩

theorem mapWithIndex_succ (F : Nat → List Char → CsvEntry) (i : Nat) (ls : List (List Char)) :
    mapWithIndex F (i + 1) ls = mapWithIndex (fun n l => F (n + 1) l) i ls := by
  induction ls generalizing i with
  | nil => rfl
  | cons l rest ih => simp only [mapWithIndex]; rw [ih]

theorem filtered_map_eq_spec (g : Nat → String) (i : Nat) (ls : List (List Char)) :
    (mapWithIndex (fun n l => parseLine (g n) l) i ls).filter (fun e => jsPos e.amount)
      = (mapWithIndex (fun n l => specLine (g n) l) i ls).filter (fun e => jsPos e.amount) := by
  induction ls generalizing i with
  | nil => rfl
  | cons l rest ih =>
    simp only [mapWithIndex, List.filter_cons]
    rcases parseLine_vs_specLine (g i) l with h | ⟨h1, h2⟩
    · rw [h, ih]
    · simp [h1, h2, ih]

theorem stripId_parseLine_eq (a b : String) (l : List Char) :
    stripId (parseLine a l) = stripId (parseLine b l) := rfl

theorem strip_filtered_map_eq (g1 g2 : Nat → String) (i j : Nat) (ls : List (List Char)) :
    ((mapWithIndex (fun n l => parseLine (g1 n) l) i ls).filter
        (fun e => jsPos e.amount)).map stripId
      = ((mapWithIndex (fun n l => parseLine (g2 n) l) j ls).filter
          (fun e => jsPos e.amount)).map stripId := by
  induction ls generalizing i j with
  | nil => rfl
  | cons l rest ih =>
    simp only [mapWithIndex, List.filter_cons]
    have hamt : (parseLine (g1 i) l).amount = (parseLine (g2 j) l).amount := rfl
    by_cases hk : jsPos (parseLine (g1 i) l).amount = true
    · rw [if_pos hk, if_pos (hamt ▸ hk)]
      simp only [List.map_cons]
      exact congrArg₂ List.cons (stripId_parseLine_eq (g1 i) (g2 j) l) (ih i.succ j.succ)
    · rw [if_neg hk, if_neg (by rw [← hamt]; exact hk)]
      exact ih i.succ j.succ

/-- C3: the statement parser realizes, line by line, the specification's
description — split on `;`, read columns 8/9 with empty/unparseable as 0,
non-zero debit means an expense of `abs(debit)` and otherwise an income of
`abs(credit)`, frequency fixed to `monthly` with empty taxes, date built by
reversing the `DD/MM/YYYY` tokens into `YYYY-MM-DD` — and Scenario B's line
yields the expected expense entry. -/
theorem parser_line_semantics (idGen : Nat → String) (text : String) :
    parseCSV idGen text = specParseCSV idGen text ∧
    parseCSV genU "header\n01/03/2024;;Groceries;;;;;;45.50;;" =
      [{ id := "u", description := some "Groceries", amount := some (91/2),
         frequency := "monthly", taxes := [], type := "expense",
         date := some (2024, 3, 1) }] :=
  ⟨filtered_map_eq_spec idGen 0 _, by decide⟩

/-- C5, counterexample: the output of the parser is not a function of the
raw text alone — the id drawn from the ambient random-UUID source appears
in the entries, so two runs over the same text with different id draws
produce different sequences. -/
theorem parse_determinism_counterexample :
    parseCSV genA "header\n01/03/2024;;Groceries;;;;;;45.50;;" ≠
      parseCSV genB "header\n01/03/2024;;Groceries;;;;;;45.50;;" := by decide

/-- C5, amended: two runs of the parser on the same input text produce
sequences that are identical after erasing the randomly drawn `id` fields
(all other fields are a deterministic function of the text, in input-line
order); with the same id draws the outputs are fully identical. -/
theorem parse_deterministic_modulo_ids (g1 g2 : Nat → String) (text : String) :
    (parseCSV g1 text).map stripId = (parseCSV g2 text).map stripId :=
  strip_filtered_map_eq g1 g2 0 0 _

theorem parseLine_amount_empty_cols (id : String) (line : List Char)
    (h8 : (splitChar ';' line).getD 8 [] = []) (h9 : (splitChar ';' line).getD 9 [] = []) :
    jsPos (parseLine id line).amount = false := by
  simp only [parseLine]
  simp only [h8, h9, ne_eq, not_true_eq_false, if_false]
  simp [jsOrNum, jsTruthyNum, jsAbs, jsPos]

/-- C8, amended: blank lines (after trimming) are skipped entirely; missing
fields read as empty; a line missing both the debit and the credit column
(fewer than 9 fields) yields amount 0 and is dropped; every emitted entry
has a strictly positive amount (amount-0 entries are dropped); and a line
with both debit and credit fields empty produces no entry.  (A line with 9
fields still carries a debit column and can produce an entry, so the
original "fewer than 10 fields means dropped" bound is off by one.) -/
theorem parser_edge_cases (idGen : Nat → String) :
    (∀ pre blank post, trimNonempty blank = false →
      parseLines idGen (pre ++ blank :: post) = parseLines idGen (pre ++ post)) ∧
    (∀ id line, (splitChar ';' line).length < 9 → jsPos (parseLine id line).amount = false) ∧
    (∀ text e, e ∈ parseCSV idGen text → ∃ q, e.amount = some q ∧ 0 < q) ∧
    (∀ id line, (splitChar ';' line).getD 8 [] = [] → (splitChar ';' line).getD 9 [] = [] →
      jsPos (parseLine id line).amount = false) := by
  refine ⟨?_, ?_, ?_, ?_⟩
  · intro pre blank post h
    simp [parseLines, List.filter_append, List.filter_cons, h]
  · intro id line hlen
    exact parseLine_amount_empty_cols id line
      (List.getD_eq_default _ _ (by omega)) (List.getD_eq_default _ _ (by omega))
  · intro text e he
    simp only [parseCSV] at he
    have hkeep := (List.mem_filter.mp he).2
    cases ha : e.amount with
    | none => rw [ha] at hkeep; simp [jsPos] at hkeep
    | some q => exact ⟨q, rfl, by rw [ha] at hkeep; simpa [jsPos] using hkeep⟩
  · intro id line h8 h9
    exact parseLine_amount_empty_cols id line h8 h9

/-- C8, counterexample: a 9-field line (fewer than 10) whose debit column
is numeric is not dropped — it produces an expense entry. -/
theorem short_line_counterexample :
    (splitChar ';' "a;b;c;d;e;f;g;h;9.5".data).length = 9 ∧
    parseCSV genU "header\na;b;c;d;e;f;g;h;9.5" =
      [{ id := "u", description := some "c", amount := some (19/2), frequency := "monthly",
         taxes := [], type := "expense", date := none }] := by decide

/-- Witness for the amended C8: a concrete blank line is skipped, and a
concrete 2-field line is dropped. -/
theorem parser_edge_cases_witness :
    parseLines genU (["01/03/2024;;A;;;;;;1;;".data] ++ "   ".data :: ["x".data]) =
      parseLines genU (["01/03/2024;;A;;;;;;1;;".data] ++ ["x".data]) ∧
    jsPos (parseLine "u" "a;b".data).amount = false := by
  have h := parser_edge_cases genU
  exact ⟨h.1 ["01/03/2024;;A;;;;;;1;;".data] "   ".data ["x".data] (by decide),
    h.2.1 "u" "a;b".data (by decide)⟩

/-- C9, counterexample: a row whose date token cannot be parsed is not
rejected and no `InvalidDate` failure occurs — the parser still emits the
row's entry, with JavaScript's Invalid Date in the date field. -/
theorem invalid_date_counterexample :
    parseCSV genU "header\nXX/XX/XXXX;;Bad;;;;;;5;;" =
      [{ id := "u", description := some "Bad", amount := some 5, frequency := "monthly",
         taxes := [], type := "expense", date := none }] := by decide

/-- C9, amended: an unparseable date token never fails the parse: the
affected row still produces its entry, with `date` equal to the
Invalid-Date marker, and rows are processed independently — the head row's
contribution is local, so the remaining rows parse exactly as they would
on their own (with the id stream advanced past the consumed draw). -/
theorem invalid_date_no_failure (g : Nat → String) (l : List Char) (ls : List (List Char)) :
    (trimNonempty l = true →
      parseLines g (l :: ls) =
        (if jsPos (parseLine (g 0) l).amount then [parseLine (g 0) l] else []) ++
          parseLines (fun n => g (n + 1)) ls) ∧
    (trimNonempty l = false → parseLines g (l :: ls) = parseLines g ls) ∧
    (∀ id, jsNewDate (joinChar '-' (splitChar '/' ((splitChar ';' l).headD [])).reverse) = none →
      (parseLine id l).date = none) := by
  refine ⟨?_, ?_, ?_⟩
  · intro ht
    simp only [parseLines, List.filter_cons, ht, if_true, mapWithIndex, mapWithIndex_succ]
    by_cases hk : jsPos (parseLine (g 0) l).amount = true <;> simp [hk]
  · intro ht
    simp [parseLines, List.filter_cons, ht]
  · intro id h
    simp only [parseLine]
    exact h

/-- Witness for the amended C9: the concrete bad-date row is emitted
locally and its date is Invalid Date, with the following row unaffected. -/
theorem invalid_date_no_failure_witness :
    parseLines genU ("XX/XX/XXXX;;Bad;;;;;;5;;".data :: ["01/03/2024;;G;;;;;;2;;".data]) =
      (if jsPos (parseLine (genU 0) "XX/XX/XXXX;;Bad;;;;;;5;;".data).amount
        then [parseLine (genU 0) "XX/XX/XXXX;;Bad;;;;;;5;;".data] else []) ++
        parseLines (fun n => genU (n + 1)) ["01/03/2024;;G;;;;;;2;;".data] ∧
    (parseLine "u" "XX/XX/XXXX;;Bad;;;;;;5;;".data).date = none := by
  have h := invalid_date_no_failure genU "XX/XX/XXXX;;Bad;;;;;;5;;".data
    ["01/03/2024;;G;;;;;;2;;".data]
  exact ⟨h.1 (by decide), h.2.2 "u" (by decide)⟩
